import Mathlib

/-!
Shallow embedding of the health-check core of the cloudsql-proxy repository
(`src/cmd/cloud_sql_proxy/internal/healthcheck/healthcheck.go`). The source
holds two variants of the same component:

* variant 1: `Server`, `NewServer`, `Close`, `NotifyStarted`, `isLive`,
  `isReady`;
* variant 2: `HC`, `NewHealthCheck`, `CloseHealthCheck`,
  `NotifyReadyForConnections`, `livenessTest`, `readinessTest`.

Machine integers: the proxy client's `MaxConnections` and
`ConnectionsCounter` are Go `uint64` values. The health-check core only
compares them (`> 0`, `>=`) and never performs arithmetic on them, so the
embedding uses `Nat`; no overflow is possible in the embedded code paths.
Mutex operations and logging calls are effects on state the embedding
threads explicitly (the log sink is a list of strings where a claim needs
it); the HTTP plumbing (`net/http`) is external, so handlers are embedded
as functions from state to state and response.
-/

/-- View of the external collaborator `proxy.Client`: a current connection
count (`ConnectionsCounter`, read atomically in the source) and an optional
maximum (`MaxConnections`, `0` means unlimited). -/
structure ProxyClient where
  ConnectionsCounter : Nat
  MaxConnections : Nat
deriving DecidableEq, Repr

/-- Variant 1 health-check server state: the `started` flag (protected by
`startedL` in the source; the mutex serialises accesses, which the
sequential embedding makes implicit) and the port string. The `srv`
field is an external `http.Server` handle and carries no core state. -/
structure Server where
  started : Bool
  port : String
deriving DecidableEq, Repr

/-- Variant 2 health-check state `HC`: the `live`, `ready` and `started`
booleans (each protected by its own package-level mutex in the source). -/
structure HC where
  live : Bool
  ready : Bool
  started : Bool
deriving DecidableEq, Repr

/-- An HTTP response as produced by the handlers: status code and body. -/
structure HttpResponse where
  status : Nat
  body : String
deriving DecidableEq, Repr

/-- Modelled from the spec: `proxy.Client.AvailableConn` lives in the proxy
package, which is not under `src/`. Per the spec, the connection-limit
readiness condition is exactly `max > 0 AND current >= max` implies not
ready, so `AvailableConn` holds precisely when that condition is false. -/
def ProxyClient.AvailableConn (c : ProxyClient) : Bool :=
  !(decide (c.MaxConnections > 0) && decide (c.ConnectionsCounter ≥ c.MaxConnections))

/-- Variant 1 `isLive`: returns true as long as the proxy is running. -/
def isLive : Bool :=
  true

/-- Variant 1 `isReady`: false until `NotifyStarted` has run, false when the
client has no available connection slot, true otherwise. -/
def isReady (c : ProxyClient) (s : Server) : Bool :=
  if !s.started then
    false
  else if !c.AvailableConn then
    false
  else
    true

/-- Variant 2 `livenessTest`: returns true as long as the proxy is running. -/
def livenessTest : Bool :=
  true

/-- Variant 2 `readinessTest`: false until `NotifyReadyForConnections` has
run, false when `MaxConnections > 0` and the counter has reached it, true
otherwise. -/
def readinessTest (proxyClient : ProxyClient) (hc : HC) : Bool :=
  if !hc.started then
    false
  else if decide (proxyClient.MaxConnections > 0) &&
      decide (proxyClient.ConnectionsCounter ≥ proxyClient.MaxConnections) then
    false
  else
    true

/-- Variant 1 `NotifyStarted`: sets `started` under the lock. -/
def Server.NotifyStarted (s : Server) : Server :=
  { s with started := true }

/-- Variant 2 `NotifyReadyForConnections`: the receiver is a possibly-nil
pointer (`Option HC`); on a nil receiver the guard skips the write. -/
def HC.NotifyReadyForConnections : Option HC → Option HC
  | none => none
  | some hc => some { hc with started := true }

/-- The `Server` value built by `NewServer`: the `started` field is the Go
zero value `false` and the port is the argument. -/
def initialServer (port : String) : Server :=
  { started := false, port := port }

/-- The `HC` value built by `NewHealthCheck`: `live` is set to true
explicitly; `ready` and `started` are the Go zero value `false`. -/
def initialHC : HC :=
  { live := true, ready := false, started := false }

/-- Variant 1 readiness handler registered by `NewServer`: not ready gives
status 500 and body "error", ready gives status 200 and body "ok". -/
def readinessHandler1 (c : ProxyClient) (s : Server) : HttpResponse :=
  if !isReady c s then
    { status := 500, body := "error" }
  else
    { status := 200, body := "ok" }

/-- Variant 1 liveness handler registered by `NewServer`. -/
def livenessHandler1 : HttpResponse :=
  if !isLive then
    { status := 500, body := "error" }
  else
    { status := 200, body := "ok" }

/-- Variant 2 readiness handler registered by `NewHealthCheck`: it stores
the test result into `hc.ready` under `readinessL` and answers 500 with
body "error\n" or 200 with body "ok\n". Returns the updated state and the
response. -/
def readinessHandler2 (proxyClient : ProxyClient) (hc : HC) : HC × HttpResponse :=
  let r := readinessTest proxyClient hc
  let hc' := { hc with ready := r }
  if !r then
    (hc', { status := 500, body := "error\n" })
  else
    (hc', { status := 200, body := "ok\n" })

/-- Variant 2 liveness handler registered by `NewHealthCheck`: it stores
the test result into `hc.live` under `livenessL` and answers 500 with body
"error\n" or 200 with body "ok\n". -/
def livenessHandler2 (hc : HC) : HC × HttpResponse :=
  let l := livenessTest
  let hc' := { hc with live := l }
  if !l then
    (hc', { status := 500, body := "error\n" })
  else
    (hc', { status := 200, body := "ok\n" })

/-- The operations of the variant 2 core that touch the `HC` state after
construction: the start notification and the two probe handlers (the probe
handlers are exactly the writers registered in `NewHealthCheck`). -/
inductive HCOp where
  | notifyReadyForConnections : HCOp
  | readinessProbe : ProxyClient → HCOp
  | livenessProbe : HCOp
deriving DecidableEq, Repr

/-- State transition of one variant 2 core operation. -/
def HCStep (hc : HC) : HCOp → HC
  | HCOp.notifyReadyForConnections =>
      match HC.NotifyReadyForConnections (some hc) with
      | some hc' => hc'
      | none => hc
  | HCOp.readinessProbe c => (readinessHandler2 c hc).1
  | HCOp.livenessProbe => (livenessHandler2 hc).1

/-- Whether a variant 2 operation is the start notification. -/
def HCOp.isNotify : HCOp → Bool
  | HCOp.notifyReadyForConnections => true
  | HCOp.readinessProbe _ => false
  | HCOp.livenessProbe => false

/-- The operations of the variant 1 core that touch the `Server` state
after construction: the start notification and the readiness probe (the
liveness handler closes over no server state and the readiness handler
only calls `isReady`). -/
inductive ServerOp where
  | notifyStarted : ServerOp
  | readinessProbe : ProxyClient → ServerOp
  | livenessProbe : ServerOp
deriving DecidableEq, Repr

/-- State transition of one variant 1 core operation: only `NotifyStarted`
writes; both probe handlers leave the `Server` state untouched. -/
def ServerStep (s : Server) : ServerOp → Server
  | ServerOp.notifyStarted => s.NotifyStarted
  | ServerOp.readinessProbe _ => s
  | ServerOp.livenessProbe => s

/-- Whether a variant 1 operation is the start notification. -/
def ServerOp.isNotify : ServerOp → Bool
  | ServerOp.notifyStarted => true
  | ServerOp.readinessProbe _ => false
  | ServerOp.livenessProbe => false

/-- Outcome of a constructor call as seen by the caller and the log sink:
what the constructor returns, and what the serve goroutine logs
asynchronously. The bind / serve result of the external `net` and
`net/http` machinery is an input (`Except` error message or success). -/
structure ConstructOutcome (H : Type) where
  result : Except String H
  asyncLog : List String
deriving Repr

/-- The sentinel error the HTTP library yields after an intentional close
(`http.ErrServerClosed`). -/
def errServerClosed : String :=
  "http: Server closed"

/-- Variant 1 `NewServer`: `net.Listen` runs synchronously before the
return; a bind error is returned to the caller and no handle is produced.
On success the handle is returned and `srv.Serve` runs on a goroutine,
whose error (when not `http.ErrServerClosed`) only goes to the log sink. -/
def NewServer (port : String) (listen : Except String Unit)
    (serve : Except String Unit) : ConstructOutcome Server :=
  match listen with
  | Except.error e => { result := Except.error e, asyncLog := [] }
  | Except.ok _ =>
      { result := Except.ok (initialServer port)
        asyncLog :=
          match serve with
          | Except.error e =>
              if e = errServerClosed then [] else ["Failed to serve: " ++ e]
          | Except.ok _ => [] }

/-- Variant 2 `NewHealthCheck`: the constructor returns the `HC` handle
unconditionally and has no error return; `srv.ListenAndServe` (bind
included) runs on a goroutine, and its error (when not
`http.ErrServerClosed`) only goes to the log sink. -/
def NewHealthCheck (listenAndServe : Except String Unit) : ConstructOutcome HC :=
  { result := Except.ok initialHC
    asyncLog :=
      match listenAndServe with
      | Except.error e =>
          if e = errServerClosed then [] else ["Failed to start endpoint(s): " ++ e]
      | Except.ok _ => [] }

/-- A Go `context.Context` as far as this core uses it: an optional
deadline. `context.Background()` carries none. -/
structure GoContext where
  deadline : Option Nat
deriving DecidableEq, Repr

/-- The background context (`context.Background()`). -/
def GoContext.background : GoContext :=
  { deadline := none }

/-- Outcome of a shutdown call as seen by the caller and the log sink:
the error value returned to the caller (if the signature has one), whether
the underlying `http.Server.Shutdown` was invoked, and what was logged. -/
structure CloseOutcome where
  returnedError : Option String
  shutdownCalled : Bool
  logged : List String
deriving DecidableEq, Repr

/-- Variant 1 `Close`: calls `s.srv.Shutdown(ctx)` with the caller's
context and returns its error verbatim. The behaviour of the external
`Shutdown` is an input function from context to result. -/
def Server.Close (ctx : GoContext)
    (shutdown : GoContext → Except String Unit) : CloseOutcome :=
  match shutdown ctx with
  | Except.ok _ => { returnedError := none, shutdownCalled := true, logged := [] }
  | Except.error e =>
      { returnedError := some e, shutdownCalled := true, logged := [] }

/-- Variant 2 `CloseHealthCheck`: on a nil receiver it does nothing; on a
non-nil receiver it calls `hc.srv.Shutdown(context.Background())`, logs any
error, and returns nothing to the caller (the Go signature has no return
value and takes no context). -/
def HC.CloseHealthCheck (hc : Option HC)
    (shutdown : GoContext → Except String Unit) : CloseOutcome :=
  match hc with
  | none => { returnedError := none, shutdownCalled := false, logged := [] }
  | some _ =>
      match shutdown GoContext.background with
      | Except.ok _ =>
          { returnedError := none, shutdownCalled := true, logged := [] }
      | Except.error e =>
          { returnedError := none, shutdownCalled := true
            logged := ["Failed to shut down health check: " ++ e] }

/-- Statement-level embedding of variant 2 `readinessTest` threading the
mutable state (the `HC` object and the proxy client) explicitly: the body
acquires `startupL`, reads `hc.started`, releases the lock, reads
`proxyClient.MaxConnections` and atomically loads
`proxyClient.ConnectionsCounter`; it contains no assignment, so the final
state is whatever the reads left — threaded here so the frame property is
a statement about the embedding, not a typing accident. -/
def readinessTestRun (proxyClient : ProxyClient) (hc : HC) :
    (HC × ProxyClient) × Bool :=
  let started := hc.started
  if !started then
    ((hc, proxyClient), false)
  else
    let m := proxyClient.MaxConnections
    let cur := proxyClient.ConnectionsCounter
    if decide (m > 0) && decide (cur ≥ m) then
      ((hc, proxyClient), false)
    else
      ((hc, proxyClient), true)

/-- Statement-level embedding of variant 1 `isReady` threading the mutable
state (the `Server` object and the proxy client): acquires `startedL`,
copies `s.started` into a local, releases the lock, then queries
`c.AvailableConn()`; no assignment to either object occurs. -/
def isReadyRun (c : ProxyClient) (s : Server) : (Server × ProxyClient) × Bool :=
  let started := s.started
  if !started then
    ((s, c), false)
  else if !c.AvailableConn then
    ((s, c), false)
  else
    ((s, c), true)

/-! Helper lemmas shared by the claim theorems below. -/

/-- One variant 2 step sets `started` exactly when the operation is the
start notification, and otherwise preserves it. -/
theorem HCStep_started (hc : HC) (op : HCOp) :
    (HCStep hc op).started = (hc.started || op.isNotify) := by
  cases op with
  | notifyReadyForConnections =>
      simp [HCStep, HC.NotifyReadyForConnections, HCOp.isNotify]
  | readinessProbe c =>
      simp only [HCStep, readinessHandler2, HCOp.isNotify, Bool.or_false]
      split <;> rfl
  | livenessProbe =>
      simp only [HCStep, livenessHandler2, livenessTest, HCOp.isNotify, Bool.or_false]
      rfl

/-- One variant 1 step sets `started` exactly when the operation is the
start notification, and otherwise preserves it. -/
theorem ServerStep_started (s : Server) (op : ServerOp) :
    (ServerStep s op).started = (s.started || op.isNotify) := by
  cases op <;> simp [ServerStep, Server.NotifyStarted, ServerOp.isNotify]

/-- Folding any run of variant 2 operations: `started` at the end is
`started` at the start, or-ed with whether a start notification occurred. -/
theorem HCStep_foldl_started (hc : HC) (ops : List HCOp) :
    (List.foldl HCStep hc ops).started = (hc.started || ops.any HCOp.isNotify) := by
  induction ops generalizing hc with
  | nil => simp
  | cons op ops ih =>
      simp [List.foldl_cons, ih, HCStep_started, Bool.or_assoc]

/-- Folding any run of variant 1 operations: `started` at the end is
`started` at the start, or-ed with whether a start notification occurred. -/
theorem ServerStep_foldl_started (s : Server) (ops : List ServerOp) :
    (List.foldl ServerStep s ops).started = (s.started || ops.any ServerOp.isNotify) := by
  induction ops generalizing s with
  | nil => simp
  | cons op ops ih =>
      simp [List.foldl_cons, ih, ServerStep_started, Bool.or_assoc]

/-- The limit condition the readiness predicates test, as a boolean:
`MaxConnections > 0` and the counter has reached it. -/
def atLimit (c : ProxyClient) : Bool :=
  decide (c.MaxConnections > 0) && decide (c.ConnectionsCounter ≥ c.MaxConnections)

/-- Variant 2 readiness is exactly: started, and not at the limit. -/
theorem readinessTest_eq (c : ProxyClient) (hc : HC) :
    readinessTest c hc = (hc.started && !atLimit c) := by
  cases h : hc.started <;> simp only [readinessTest, atLimit, h] <;> split <;> simp_all

/-- Variant 1 readiness is exactly: started, and not at the limit (through
the spec-modelled `AvailableConn`). -/
theorem isReady_eq (c : ProxyClient) (s : Server) :
    isReady c s = (s.started && !atLimit c) := by
  cases h : s.started <;>
    simp only [isReady, ProxyClient.AvailableConn, atLimit, h] <;> split <;> simp_all

/-! Claim theorems. -/

/-- C1: for every startup flag value and every connection-info pair, both
readiness predicates return false when `started` is false, false when
`MaxConnections > 0` and the counter has reached it, and true otherwise —
the full characterization shows no other condition affects the result; in
particular with `started = true` and `max = 10` they return false at
`current = 10` and true at `current = 9`, and with `max = 0` they return
true for every current count. -/
theorem c1_readiness_characterization :
    (∀ (c : ProxyClient) (hc : HC),
      readinessTest c hc =
        (hc.started &&
          !(decide (c.MaxConnections > 0) &&
            decide (c.ConnectionsCounter ≥ c.MaxConnections)))) ∧
    (∀ (c : ProxyClient) (s : Server),
      isReady c s =
        (s.started &&
          !(decide (c.MaxConnections > 0) &&
            decide (c.ConnectionsCounter ≥ c.MaxConnections)))) ∧
    (∀ (l r : Bool) (p : String),
      readinessTest ⟨10, 10⟩ ⟨l, r, true⟩ = false ∧
      readinessTest ⟨9, 10⟩ ⟨l, r, true⟩ = true ∧
      isReady ⟨10, 10⟩ ⟨true, p⟩ = false ∧
      isReady ⟨9, 10⟩ ⟨true, p⟩ = true) ∧
    (∀ (cur : Nat) (l r : Bool) (p : String),
      readinessTest ⟨cur, 0⟩ ⟨l, r, true⟩ = true ∧
      isReady ⟨cur, 0⟩ ⟨true, p⟩ = true) := by
  refine ⟨fun c hc => readinessTest_eq c hc, fun c s => isReady_eq c s, ?_, ?_⟩
  · exact fun l r p => ⟨rfl, rfl, rfl, rfl⟩
  · exact fun cur l r p => ⟨rfl, rfl⟩

/-- C2: `started` is monotonic — it is false in the state each constructor
builds, a step changes it exactly when the step is the start notification
(so no core operation resets it to false), and once it is true every run
of further core operations leaves it true. -/
theorem c2_started_monotonic :
    (∀ port : String, (initialServer port).started = false) ∧
    initialHC.started = false ∧
    (∀ (hc : HC) (op : HCOp), (HCStep hc op).started = (hc.started || op.isNotify)) ∧
    (∀ (s : Server) (op : ServerOp),
      (ServerStep s op).started = (s.started || op.isNotify)) ∧
    (∀ (hc : HC) (ops : List HCOp),
      hc.started = true → (List.foldl HCStep hc ops).started = true) ∧
    (∀ (s : Server) (ops : List ServerOp),
      s.started = true → (List.foldl ServerStep s ops).started = true) := by
  refine ⟨fun _ => rfl, rfl, HCStep_started, ServerStep_started, ?_, ?_⟩
  · intro hc ops h
    simp [HCStep_foldl_started, h]
  · intro s ops h
    simp [ServerStep_foldl_started, h]

/-- Witness for C2: a concrete started state stays started across a
concrete run of probe operations, in both variants. -/
theorem c2_started_monotonic_witness :
    (List.foldl HCStep ⟨true, false, true⟩
      [HCOp.livenessProbe, HCOp.readinessProbe ⟨3, 5⟩]).started = true ∧
    (List.foldl ServerStep ⟨true, "8090"⟩
      [ServerOp.readinessProbe ⟨3, 5⟩, ServerOp.livenessProbe]).started = true :=
  ⟨c2_started_monotonic.2.2.2.2.1 ⟨true, false, true⟩
      [HCOp.livenessProbe, HCOp.readinessProbe ⟨3, 5⟩] rfl,
   c2_started_monotonic.2.2.2.2.2 ⟨true, "8090"⟩
      [ServerOp.readinessProbe ⟨3, 5⟩, ServerOp.livenessProbe] rfl⟩

/-- C3: both liveness predicates return true unconditionally, so the 500
branch of each liveness handler is unreachable and the handlers always
answer 200 (variant 2 additionally stores `live := true`). -/
theorem c3_liveness_always_true :
    isLive = true ∧
    livenessTest = true ∧
    livenessHandler1 = { status := 200, body := "ok" } ∧
    (∀ hc : HC,
      (livenessHandler2 hc).2 = { status := 200, body := "ok\n" } ∧
      (livenessHandler2 hc).1 = { hc with live := true }) :=
  ⟨rfl, rfl, rfl, fun _ => ⟨rfl, rfl⟩⟩

/-- C4: for every connection count and limit, while `started` is still
false both readiness predicates return false, whatever the other fields
hold. -/
theorem c4_not_started_never_ready :
    (∀ (c : ProxyClient) (l r : Bool),
      readinessTest c { live := l, ready := r, started := false } = false) ∧
    (∀ (c : ProxyClient) (p : String),
      isReady c { started := false, port := p } = false) :=
  ⟨fun _ _ _ => rfl, fun _ _ => rfl⟩

/-- C5: the start notification is idempotent (a second call leaves the
state of the first), infallible at the type level (it returns only the
updated state, with no error outcome), and after it runs every further run
of core operations — in particular every readiness query — observes
`started = true`, so the readiness result reduces to the connection-limit
check alone. -/
theorem c5_notify_idempotent_infallible :
    (∀ s : Server, s.NotifyStarted.NotifyStarted = s.NotifyStarted) ∧
    (∀ x : Option HC,
      HC.NotifyReadyForConnections (HC.NotifyReadyForConnections x) =
        HC.NotifyReadyForConnections x) ∧
    (∀ s : Server, s.NotifyStarted.started = true) ∧
    (∀ (hc : HC) (ops : List HCOp),
      (List.foldl HCStep (HCStep hc HCOp.notifyReadyForConnections) ops).started
        = true) ∧
    (∀ (s : Server) (ops : List ServerOp),
      (List.foldl ServerStep (ServerStep s ServerOp.notifyStarted) ops).started
        = true) ∧
    (∀ (c : ProxyClient) (hc : HC),
      readinessTest c (HCStep hc HCOp.notifyReadyForConnections) =
        !(decide (c.MaxConnections > 0) &&
          decide (c.ConnectionsCounter ≥ c.MaxConnections))) := by
  refine ⟨fun s => rfl, ?_, fun s => rfl, ?_, ?_, ?_⟩
  · intro x
    cases x <;> rfl
  · intro hc ops
    simp [HCStep_foldl_started, HCStep_started, HCOp.isNotify]
  · intro s ops
    simp [ServerStep_foldl_started, ServerStep_started, ServerOp.isNotify]
  · intro c hc
    have h : (HCStep hc HCOp.notifyReadyForConnections).started = true := by
      simp [HCStep_started, HCOp.isNotify]
    simp [readinessTest_eq, h, atLimit]

/-- Counterexample for C6: on a concrete bind failure ("address already in
use"), `NewHealthCheck` still hands back the `HC` handle with no
constructor error — the failure only surfaces in the goroutine's log — so
the claim that every bind failure is returned as a constructor error and a
handle is produced only on a successful bind is false for this variant. -/
theorem c6_counterexample :
    (NewHealthCheck
      (Except.error "listen tcp :8080: bind: address already in use")).result
        = Except.ok initialHC ∧
    (NewHealthCheck
      (Except.error "listen tcp :8080: bind: address already in use")).asyncLog
        = ["Failed to start endpoint(s): listen tcp :8080: bind: address already in use"] := by
  constructor
  · rfl
  · simp [NewHealthCheck, errServerClosed]

/-- C6 amended: `NewServer` binds synchronously and propagates every bind
error to the caller, producing a handle only on a successful bind, and any
later serve error other than the intentional-close sentinel only reaches
the log; `NewHealthCheck`, by contrast, returns its handle unconditionally
with no error return, and a bind failure is only logged asynchronously by
the serving goroutine. -/
theorem c6_constructor_bind_behaviour :
    (∀ (port e : String) (serve : Except String Unit),
      NewServer port (Except.error e) serve =
        { result := Except.error e, asyncLog := [] }) ∧
    (∀ (port : String) (serve : Except String Unit),
      (NewServer port (Except.ok ()) serve).result =
        Except.ok (initialServer port)) ∧
    (∀ (port e : String),
      (NewServer port (Except.ok ()) (Except.error e)).asyncLog =
        if e = errServerClosed then [] else ["Failed to serve: " ++ e]) ∧
    (∀ lAS : Except String Unit, (NewHealthCheck lAS).result = Except.ok initialHC) ∧
    (∀ e : String,
      (NewHealthCheck (Except.error e)).asyncLog =
        if e = errServerClosed then [] else ["Failed to start endpoint(s): " ++ e]) :=
  ⟨fun _ _ _ => rfl, fun _ _ => rfl, fun _ _ => rfl, fun _ => rfl, fun _ => rfl⟩

/-- Counterexample for C7: with the proxy started and no limit, variant 2's
readiness predicate returns true but the handler body is "ok\n", not
exactly "ok" as the claim states for every handled request. -/
theorem c7_counterexample :
    readinessTest ⟨0, 0⟩ ⟨true, false, true⟩ = true ∧
    (readinessHandler2 ⟨0, 0⟩ ⟨true, false, true⟩).2.body ≠ "ok" := by
  refine ⟨rfl, ?_⟩
  intro h
  exact absurd (congrArg String.length h) (by decide)

/-- C7 amended: every handled request is answered with status 200 when the
readiness predicate holds and 500 otherwise, and liveness success is 200;
the bodies are exactly "ok" / "error" for the `NewServer` handlers, and
"ok\n" / "error\n" (with a trailing newline) for the `NewHealthCheck`
handlers. -/
theorem c7_handler_responses :
    (∀ (c : ProxyClient) (s : Server),
      readinessHandler1 c s =
        if isReady c s then { status := 200, body := "ok" }
        else { status := 500, body := "error" }) ∧
    livenessHandler1 = { status := 200, body := "ok" } ∧
    (∀ (c : ProxyClient) (hc : HC),
      (readinessHandler2 c hc).2 =
        if readinessTest c hc then { status := 200, body := "ok\n" }
        else { status := 500, body := "error\n" }) ∧
    (∀ hc : HC, (livenessHandler2 hc).2 = { status := 200, body := "ok\n" }) := by
  refine ⟨?_, rfl, ?_, fun hc => rfl⟩
  · intro c s
    simp only [readinessHandler1]
    cases isReady c s <;> simp
  · intro c hc
    simp only [readinessHandler2]
    cases readinessTest c hc <;> simp

/-- Counterexample for C8: on a concrete shutdown failure ("context
deadline exceeded"), `CloseHealthCheck` invokes `Shutdown` with the
background context, logs the failure, and returns no error to its caller —
and its Go signature takes no deadline — so the claim that the shutdown
operation returns an error whenever shutdown did not complete cleanly is
false for this variant. -/
theorem c8_counterexample :
    HC.CloseHealthCheck (some initialHC)
        (fun _ => Except.error "context deadline exceeded") =
      { returnedError := none, shutdownCalled := true
        logged := ["Failed to shut down health check: context deadline exceeded"] } := rfl

/-- C8 amended: `Close` takes the caller's context and returns exactly the
error `Shutdown` produced under it — an error whenever shutdown did not
complete cleanly and no error when it did; `CloseHealthCheck` takes no
deadline (it always passes the background context), never returns an
error, and only logs a failed shutdown. -/
theorem c8_close_error_reporting :
    (∀ (ctx : GoContext) (shutdown : GoContext → Except String Unit),
      (Server.Close ctx shutdown).returnedError =
        (match shutdown ctx with
         | Except.ok _ => none
         | Except.error e => some e)) ∧
    (∀ (hc : HC) (shutdown : GoContext → Except String Unit),
      (HC.CloseHealthCheck (some hc) shutdown).returnedError = none) ∧
    (∀ (hc : HC) (e : String),
      (HC.CloseHealthCheck (some hc) (fun _ => Except.error e)).logged =
        ["Failed to shut down health check: " ++ e]) := by
  refine ⟨?_, ?_, fun hc e => rfl⟩
  · intro ctx shutdown
    simp only [Server.Close]
    cases shutdown ctx <;> rfl
  · intro hc shutdown
    simp only [HC.CloseHealthCheck]
    cases shutdown GoContext.background <;> rfl

/-- C9: on a nil receiver, `NotifyReadyForConnections` and
`CloseHealthCheck` are safe no-ops — the state is unchanged, the
underlying `Shutdown` is never invoked, nothing is logged and nothing
fails. -/
theorem c9_nil_receiver_noop :
    HC.NotifyReadyForConnections none = none ∧
    (∀ shutdown : GoContext → Except String Unit,
      HC.CloseHealthCheck none shutdown =
        { returnedError := none, shutdownCalled := false, logged := [] }) :=
  ⟨rfl, fun _ => rfl⟩

/-- C10: both readiness predicates are read-only queries — the
statement-level embeddings return the health-check state and the proxy
client unchanged, and their boolean result agrees with the pure
predicates. -/
theorem c10_readiness_read_only :
    (∀ (c : ProxyClient) (hc : HC),
      (readinessTestRun c hc).1 = (hc, c) ∧
      (readinessTestRun c hc).2 = readinessTest c hc) ∧
    (∀ (c : ProxyClient) (s : Server),
      (isReadyRun c s).1 = (s, c) ∧
      (isReadyRun c s).2 = isReady c s) := by
  constructor
  · intro c hc
    constructor
    · simp only [readinessTestRun]
      split <;> [rfl; (split <;> rfl)]
    · simp only [readinessTestRun, readinessTest]
      split <;> [rfl; (split <;> rfl)]
  · intro c s
    constructor
    · simp only [isReadyRun]
      split <;> [rfl; (split <;> rfl)]
    · simp only [isReadyRun, isReady]
      split <;> [rfl; (split <;> rfl)]
